import Mathlib

/-!
# Verification of the Nova Support cart/order/tool-dispatch core

Shallow embedding of the customer-support demo application's orchestration
core: the cart/order state machine (`App.tsx` / `src/unnamed/part_005`),
the catalog query service (`data/mockData.ts` / `src/unnamed/part_001`),
and the streaming voice session's tool dispatcher and audio scheduling
(`src/components/LiveSupport.tsx`).

JavaScript numbers that the program actually uses as integers (prices,
quantities, random draws) are embedded as `Int`/`Nat`; audio-clock times
are embedded as `Rat`.  React `useState` updates are embedded as explicitly
queued updates that are applied at a commit point (a re-render), since the
streaming dispatcher observes state through `useRef` mirrors that are only
refreshed by a `useEffect` after a commit.
-/

namespace NovaSupport

/-- JavaScript `String.prototype.startsWith` on character lists:
`matchesAt needle hay` is true when `needle` occurs at the head of `hay`. -/
def matchesAt : List Char → List Char → Bool
  | [], _ => true
  | _ :: _, [] => false
  | a :: as, b :: bs => a == b && matchesAt as bs

/-- JavaScript `String.prototype.includes` on character lists. -/
def containsChars : List Char → List Char → Bool
  | [], needle => needle.isEmpty
  | c :: rest, needle => matchesAt needle (c :: rest) || containsChars rest needle

/-- JavaScript `hay.includes(needle)` (exact substring test). -/
def jsIncludes (hay needle : String) : Bool :=
  containsChars hay.data needle.data

/-- JavaScript `s.toLowerCase()`: lowercase each character (the same
character mapping as `String.toLower`, written over `String.data` so that
it evaluates inside the kernel). -/
def jsToLower (s : String) : String :=
  ⟨s.data.map Char.toLower⟩

/-- JavaScript `x || d` for an optional numeric argument: `undefined` and `0`
are falsy and replaced by the default, every other integer is kept
(`LiveSupport.tsx`, `const qty = quantity || 1`). -/
def jsOrDefault (q : Option Int) (d : Int) : Int :=
  match q with
  | none => d
  | some v => if v = 0 then d else v

/-- Catalog entry (`types.ts` `Product`); created at startup, never mutated. -/
structure Product where
  id : String
  name : String
  category : String
  price : Int
  image : String
  inStock : Bool
  rating : Rat
  reviewCount : Nat
deriving DecidableEq, Repr

/-- Cart entry (`types.ts` `CartItem`): a product reference and a quantity. -/
structure CartItem where
  product : Product
  quantity : Int
deriving DecidableEq, Repr

/-- An order line item (`types.ts` `OrderItem`). -/
structure OrderItem where
  productId : String
  quantity : Int
deriving DecidableEq, Repr

/-- Order status (`types.ts` `Order.status`). -/
inductive OrderStatus where
  | Delivered
  | Processing
  | Shipped
  | Returned
deriving DecidableEq, Repr

/-- A placed order (`types.ts` `Order`). -/
structure Order where
  id : String
  date : String
  status : OrderStatus
  items : List OrderItem
  total : Int
deriving DecidableEq, Repr

/-- Customer role (`types.ts` `UserRole`). -/
inductive UserRole where
  | customer
  | admin
deriving DecidableEq, Repr

/-- A customer with an order history, most recent first (`types.ts` `Customer`). -/
structure Customer where
  id : String
  name : String
  email : String
  role : UserRole
  orders : List Order
deriving DecidableEq, Repr

/-! ## Cart/Order state machine (`src/unnamed/part_005`, `App.tsx`) -/

/-- `addToCart` (`App.tsx` lines 23-36): if an entry with the product's id
already exists, increment its quantity, otherwise append a new entry. -/
def addToCart (cart : List CartItem) (product : Product) (quantity : Int) :
    List CartItem :=
  match cart.find? (fun item => item.product.id == product.id) with
  | some _ =>
      cart.map (fun item =>
        if item.product.id == product.id then
          { item with quantity := item.quantity + quantity }
        else item)
  | none => cart ++ [{ product := product, quantity := quantity }]

/-- `updateCartItemQuantity` (`App.tsx` lines 38-43): a no-op when
`newQuantity < 1`, otherwise replaces the matching entry's quantity. -/
def updateCartItemQuantity (cart : List CartItem) (productId : String)
    (newQuantity : Int) : List CartItem :=
  if newQuantity < 1 then cart
  else
    cart.map (fun item =>
      if item.product.id == productId then { item with quantity := newQuantity }
      else item)

/-- `removeFromCart` (`App.tsx` lines 45-47). -/
def removeFromCart (cart : List CartItem) (productId : String) : List CartItem :=
  cart.filter (fun item => !(item.product.id == productId))

/-- `clearCart` (`App.tsx` lines 49-51). -/
def clearCart (_cart : List CartItem) : List CartItem := []

/-- The order id generated by `handleCheckout`
(`App.tsx` line 55, `ORD-${Math.floor(Math.random() * 10000)}`);
`rand` stands for the value of `Math.floor(Math.random() * 10000)`,
so only `rand % 10000` matters. -/
def genOrderId (rand : Nat) : String :=
  "ORD-" ++ toString (rand % 10000)

/-- The order total computed by `handleCheckout`
(`App.tsx` line 61, `cart.reduce((sum, item) => sum + item.product.price * item.quantity, 0)`). -/
def cartTotal (cart : List CartItem) : Int :=
  cart.foldl (fun sum item => sum + item.product.price * item.quantity) 0

/-- The `Order` record built by `handleCheckout` (`App.tsx` lines 56-62). -/
def mkOrder (rand : Nat) (date : String) (cart : List CartItem) : Order :=
  { id := genOrderId rand
    date := date
    status := .Processing
    items := cart.map (fun item => ⟨item.product.id, item.quantity⟩)
    total := cartTotal cart }

/-- The `CUSTOMERS` write-through in `handleCheckout` (`App.tsx` lines 69-72):
`findIndex` locates the first customer with the given id and prepends the
order to that customer's history; when no customer matches, nothing changes. -/
def prependOrderAtFirst (customers : List Customer) (customerId : String)
    (order : Order) : List Customer :=
  match customers with
  | [] => []
  | c :: rest =>
      if c.id == customerId then { c with orders := order :: c.orders } :: rest
      else c :: prependOrderAtFirst rest customerId order

/-- What one `handleCheckout` call computes (`App.tsx` lines 53-76), before
its React state updates are applied: the returned order id, the new order,
the updated `currentUser` value passed to `setCurrentUser`, and the
synchronously mutated `CUSTOMERS` list. -/
structure CheckoutResult where
  orderId : String
  newOrder : Order
  updatedUser : Customer
  customers : List Customer
deriving Repr

/-- `handleCheckout` (`App.tsx` lines 53-76).  There is no empty-cart check:
the order is built unconditionally from the current cart. -/
def handleCheckout (rand : Nat) (date : String) (cart : List CartItem)
    (currentUser : Customer) (customers : List Customer) : CheckoutResult :=
  let newOrder := mkOrder rand date cart
  { orderId := newOrder.id
    newOrder := newOrder
    updatedUser := { currentUser with orders := newOrder :: currentUser.orders }
    customers := prependOrderAtFirst customers currentUser.id newOrder }

/-- The application-level state owned by `App.tsx`: the active customer,
the shared mock `CUSTOMERS` list, and the cart. -/
structure AppState where
  currentUser : Customer
  customers : List Customer
  cart : List CartItem
deriving Repr

/-- A `handleCheckout` call together with its own React state updates applied
(`setCurrentUser(updatedUser)` and `setCart([])`, `App.tsx` lines 66 and 74):
the post-commit application state as seen by the direct UI checkout path. -/
def appCheckout (rand : Nat) (date : String) (s : AppState) :
    String × AppState :=
  let r := handleCheckout rand date s.cart s.currentUser s.customers
  (r.orderId,
   { currentUser := r.updatedUser, customers := r.customers, cart := [] })

/-! ## Catalog query service (`src/unnamed/part_001`, `data/mockData.ts`) -/

/-- `searchProducts` (`mockData.ts` lines 124-139), parameterised by the
product list it closes over.  `Option String` models an optional argument;
the emptiness tests reproduce JavaScript's `if (category)` / `if (query)`
truthiness checks (the empty string is falsy).  The umbrella categories
`apparel`, `clothing` and `apparels` (after lowercasing) skip the category
filter entirely; results keep catalog order and are cut to the first 5. -/
def searchProducts (products : List Product) (query category : Option String) :
    List Product :=
  let afterCategory :=
    match category with
    | none => products
    | some cat =>
        if cat.isEmpty then products
        else
          let lowerCat := jsToLower cat
          if lowerCat == "apparel" || lowerCat == "clothing" ||
              lowerCat == "apparels" then products
          else products.filter (fun p => jsIncludes (jsToLower p.category) lowerCat)
  let afterQuery :=
    match query with
    | none => afterCategory
    | some q =>
        if q.isEmpty then afterCategory
        else
          let lowerQuery := jsToLower q
          afterCategory.filter (fun p => jsIncludes (jsToLower p.name) lowerQuery)
  afterQuery.take 5

/-- `getCustomerOrders` (`mockData.ts` lines 141-144), parameterised by the
`CUSTOMERS` list it closes over. -/
def getCustomerOrders (customers : List Customer) (customerId : String) :
    List Order :=
  match customers.find? (fun c => c.id == customerId) with
  | some c => c.orders
  | none => []

/-- The pre-seeded `CUSTOMERS` of `mockData.ts` lines 47-113.  The ids,
names, emails, roles, order ids, order dates and order statuses are the
literal values of the source; each order's line items (and hence its total)
are drawn with `Math.random()` at startup, so they are embedded as empty
lists with total 0 — no claim depends on the seeded items, only on the
seeded order ids. -/
def seededCustomers : List Customer :=
  [ { id := "ADMIN", name := "System Admin", email := "admin@technova.com",
      role := .admin, orders := [] },
    { id := "C1", name := "Alice Johnson", email := "alice@example.com",
      role := .customer,
      orders :=
        [ { id := "ORD-7782", date := "2023-10-15", status := .Delivered,
            items := [], total := 0 },
          { id := "ORD-9921", date := "2023-11-02", status := .Processing,
            items := [], total := 0 } ] },
    { id := "C2", name := "Bob Smith", email := "bob@example.com",
      role := .customer, orders := [] },
    { id := "C3", name := "Charlie Davis", email := "charlie@example.com",
      role := .customer,
      orders :=
        [ { id := "ORD-1102", date := "2023-09-10", status := .Returned,
            items := [], total := 0 },
          { id := "ORD-2231", date := "2023-10-01", status := .Delivered,
            items := [], total := 0 },
          { id := "ORD-3341", date := "2023-11-05", status := .Shipped,
            items := [], total := 0 } ] } ]

/-! ## Streaming-session tool dispatcher (`LiveSupport.tsx`, `onmessage`)

The voice channel's `onmessage` handler walks a tool-call batch in order.
Cart mutations go through React `setCart`, which only takes effect at the
next commit (re-render); the `cartRef` mirror consulted by `place_order`
and the `cart`/`currentUser` closed over by `placeOrderRef.current`
(= `handleCheckout`) are the values of the last commit.  The module-level
`CUSTOMERS` array, by contrast, is mutated synchronously by
`handleCheckout`.  The embedding therefore keeps: the committed cart, the
committed active customer, the live `CUSTOMERS` list, and a queue of
pending cart updates that a commit applies in order. -/

/-- A queued `setCart` update: `add` is the functional update enqueued by
`addToCart` (`App.tsx` line 24), `clear` is the `setCart([])` of
`handleCheckout` (`App.tsx` line 74). -/
inductive CartUpdate where
  | add (product : Product) (quantity : Int)
  | clear
deriving DecidableEq, Repr

/-- Apply one queued `setCart` update to a cart value. -/
def applyCartUpdate (cart : List CartItem) : CartUpdate → List CartItem
  | .add p q => addToCart cart p q
  | .clear => []

/-- A parsed tool call received by the dispatcher, with its key/value
arguments; `Option` models a possibly missing argument. -/
inductive ToolCall where
  | searchProductsCall (query category : Option String)
  | getMyOrders
  | addToCartCall (productName : Option String) (quantity : Option Int)
  | placeOrderCall
  | escalateIssue (reason : Option String)
  | unknown (name : String)
deriving DecidableEq, Repr

/-- The shapes of the `result` objects built by the `onmessage` dispatch
branches (`LiveSupport.tsx` lines 219-265). -/
inductive ToolResult where
  | unknownTool
  | products (found : List Product)
  | orders (history : List Order)
  | success (message : String) (orderId : Option String)
      (ticketId : Option String)
  | failure (message : String)
deriving DecidableEq, Repr

/-- A thrown JavaScript exception escaping a dispatch branch. -/
inductive JsError where
  | typeError (message : String)
deriving DecidableEq, Repr

/-- The category-based upsell hint (`LiveSupport.tsx` lines 234-237). -/
def recommendationFor (category : String) : String :=
  if category == "T-Shirt" || category == "Jacket" || category == "Hoodie" then
    "Suggest Jeans."
  else if category == "Jeans" then "Suggest a T-Shirt."
  else ""

/-- The success message of the `add_to_cart` branch
(`LiveSupport.tsx` line 241). -/
def addSuccessMessage (p : Product) (qty : Int) : String :=
  "Added " ++ toString qty ++ " x " ++ p.name ++ " to cart. Total: $" ++
    toString (p.price * qty) ++ ". [SYSTEM HINT: The user bought " ++
    p.category ++ ". " ++ recommendationFor p.category ++ "]"

/-- The failure message of the `add_to_cart` branch
(`LiveSupport.tsx` line 244). -/
def productNotFoundMessage (productName : String) : String :=
  "Product \"" ++ productName ++ "\" not found."

/-- The empty-cart failure message of the `place_order` branch
(`LiveSupport.tsx` line 248). -/
def emptyCartMessage : String := "Cart is empty. Cannot place order."

/-- The success message of the `place_order` branch
(`LiveSupport.tsx` line 254). -/
def orderPlacedMessage (orderId : String) : String :=
  "Order placed successfully. Order ID: " ++ orderId ++
    ". You MUST tell the user this ID."

/-- The success message of the `escalate_issue` branch
(`LiveSupport.tsx` line 263). -/
def escalationMessage (ticketId : String) : String :=
  "Escalation successful. Ticket ID: " ++ ticketId ++ ". Inform the user."

/-- Dispatch-time environment: the immutable catalog, the calendar date a
checkout stamps on an order, and the ticket id the escalation stub returns. -/
structure DispatchEnv where
  products : List Product
  date : String
  ticketId : String
deriving Repr

/-- The state visible to the streaming session's dispatcher.
`committedCart` is simultaneously `cartRef.current` and the `cart` closed
over by the committed `handleCheckout`; `currentUser` is the committed
active-customer prop; `sessionUser` is the `currentUser` captured by the
`onmessage` closure when the session started; `customers` is the live
module-level `CUSTOMERS` array; `pendingCart`/`pendingUser` are React
updates queued but not yet committed; `rands` supplies the successive
`Math.floor(Math.random() * 10000)` draws. -/
structure LiveState where
  committedCart : List CartItem
  currentUser : Customer
  sessionUser : Customer
  customers : List Customer
  pendingCart : List CartUpdate
  pendingUser : Option Customer
  rands : List Nat
deriving Repr

/-- A commit (re-render): apply the queued `setCart` updates in order,
apply the last `setCurrentUser`, and refresh the refs/closures. -/
def commitState (st : LiveState) : LiveState :=
  { st with
    committedCart := st.pendingCart.foldl applyCartUpdate st.committedCart
    currentUser := st.pendingUser.getD st.currentUser
    pendingCart := []
    pendingUser := none }

/-- One iteration of the `onmessage` dispatch loop
(`LiveSupport.tsx` lines 218-272).  A branch that throws surfaces as
`Except.error`; `add_to_cart` with a missing `productName` evaluates
`productName.toLowerCase()` on `undefined` and therefore throws a
`TypeError` — there is no required-argument validation. -/
def dispatchCall (env : DispatchEnv) (st : LiveState) (call : ToolCall) :
    Except JsError (ToolResult × LiveState) :=
  match call with
  | .searchProductsCall query category =>
      .ok (.products (searchProducts env.products query category), st)
  | .getMyOrders =>
      .ok (.orders (getCustomerOrders st.customers st.sessionUser.id), st)
  | .addToCartCall productName? quantity? =>
      match productName? with
      | none =>
          .error (.typeError
            "Cannot read properties of undefined (reading toLowerCase)")
      | some productName =>
          match env.products.find?
              (fun p => jsIncludes (jsToLower p.name) (jsToLower productName)) with
          | none => .ok (.failure (productNotFoundMessage productName), st)
          | some foundProduct =>
              let qty := jsOrDefault quantity? 1
              .ok (.success (addSuccessMessage foundProduct qty) none none,
                { st with
                  pendingCart := st.pendingCart ++ [.add foundProduct qty] })
  | .placeOrderCall =>
      if st.committedCart.isEmpty then .ok (.failure emptyCartMessage, st)
      else
        let rand := st.rands.headD 0
        let r := handleCheckout rand env.date st.committedCart st.currentUser
          st.customers
        .ok (.success (orderPlacedMessage r.orderId) (some r.orderId) none,
          { st with
            customers := r.customers
            pendingUser := some r.updatedUser
            pendingCart := st.pendingCart ++ [.clear]
            rands := st.rands.tail })
  | .escalateIssue _reason? =>
      .ok (.success (escalationMessage env.ticketId) none (some env.ticketId),
        st)
  | .unknown _name => .ok (.unknownTool, st)

/-- Dispatch a whole tool-call batch in order, collecting the structured
results; a thrown exception aborts the loop (the remaining calls never run
and no responses are sent). -/
def dispatchBatch (env : DispatchEnv) (st : LiveState) :
    List ToolCall → Except JsError (List ToolResult × LiveState)
  | [] => .ok ([], st)
  | call :: rest =>
      match dispatchCall env st call with
      | .error e => .error e
      | .ok (result, st') =>
          match dispatchBatch env st' rest with
          | .error e => .error e
          | .ok (results, st'') => .ok (result :: results, st'')

/-- The structured results of a batch, `[]` when the batch threw. -/
def batchResults (run : Except JsError (List ToolResult × LiveState)) :
    List ToolResult :=
  match run with
  | .ok (results, _) => results
  | .error _ => []

/-! ## Audio playback scheduling (`LiveSupport.tsx` lines 285-308) -/

/-- Playback bookkeeping of the voice channel: the `nextStartTimeRef`
cursor and the `sourcesRef` set of scheduled fragments, each recorded as
(start time, duration). -/
structure AudioPlayback where
  nextStartTime : Rat
  sources : List (Rat × Rat)
deriving DecidableEq, Repr

/-- Scheduling one inbound audio fragment (`LiveSupport.tsx` lines
286-298): the cursor is first pulled up to the current playback-clock time
`now`, the fragment starts at the resulting cursor, is added to the tracked
set, and the cursor advances by the fragment's duration.  Returns the new
state and the fragment's start time. -/
def scheduleFragment (st : AudioPlayback) (now duration : Rat) :
    AudioPlayback × Rat :=
  let start := max st.nextStartTime now
  ({ nextStartTime := start + duration,
     sources := (start, duration) :: st.sources }, start)

/-- The interruption branch (`LiveSupport.tsx` lines 304-308): stop every
tracked fragment, clear the set, and reset the cursor to 0. -/
def handleInterruption (_st : AudioPlayback) : AudioPlayback :=
  { nextStartTime := 0, sources := [] }

/-! ## Spec-side predicates used to state the claims -/

/-- The current catalog price of a product id: the price of the first
catalog entry with that id, if any. -/
def catalogPrice (products : List Product) (productId : String) : Option Int :=
  (products.find? (fun p => p.id == productId)).map (fun p => p.price)

/-- Sum over a cart of (current catalog price of the product) × (quantity),
as the spec words the order total. -/
def specTotal (products : List Product) (cart : List CartItem) : Int :=
  (cart.map (fun it =>
    (catalogPrice products it.product.id).getD 0 * it.quantity)).sum

/-- The cart-quantity invariant of the spec: every entry's quantity is ≥ 1.
(Reducible so that `decide` can evaluate it on concrete carts.) -/
@[reducible] def CartOk (cart : List CartItem) : Prop :=
  ∀ it ∈ cart, 1 ≤ it.quantity

/-- A queued cart update that respects the quantity invariant. -/
def CartUpdateOk : CartUpdate → Prop
  | .add _ q => 1 ≤ q
  | .clear => True

/-- Whether a category argument is one of the generic/umbrella terms that
make `searchProducts` ignore the category filter. -/
def genericCategory : Option String → Bool
  | none => false
  | some c =>
      jsToLower c == "apparel" || jsToLower c == "clothing" ||
        jsToLower c == "apparels"

/-- Modelled from the spec (§4.1): the predicate a product must satisfy to
be a search match — the text query (when present and non-empty, i.e.
truthy) is a case-insensitive substring match against the product name, and
the category (when present, non-empty and not a generic/umbrella term) is a
case-insensitive substring match against the product category.  Used only
to compare `searchProducts` against the spec's wording. -/
def specMatch (query category : Option String) (p : Product) : Bool :=
  (match query with
   | none => true
   | some q =>
       if q.isEmpty then true
       else jsIncludes (jsToLower p.name) (jsToLower q)) &&
  (match category with
   | none => true
   | some c =>
       if c.isEmpty then true
       else if genericCategory (some c) then true
       else jsIncludes (jsToLower p.category) (jsToLower c))

/-! ## Concrete fixtures for witnesses and counterexamples -/

/-- A concrete catalog entry in the shape `generateProducts` emits. -/
def demoProduct : Product :=
  { id := "P1000", name := "Vintage Red T-Shirt", category := "T-Shirt",
    price := 40, image := "", inStock := true, rating := 4,
    reviewCount := 10 }

/-- A second concrete catalog entry with a different id and category. -/
def demoJeans : Product :=
  { id := "P1001", name := "Modern Blue Jeans", category := "Jeans",
    price := 50, image := "", inStock := true, rating := 4,
    reviewCount := 25 }

/-- A concrete customer with no prior orders. -/
def demoUser : Customer :=
  { id := "C2", name := "Bob Smith", email := "bob@example.com",
    role := .customer, orders := [] }

/-- Alice, the seeded customer with pre-existing order ids. -/
def aliceSeeded : Customer := seededCustomers.get ⟨1, by decide⟩

/-- A concrete dispatch environment over a two-product catalog. -/
def demoEnv : DispatchEnv :=
  { products := [demoProduct, demoJeans], date := "2024-06-01",
    ticketId := "TKT-11111" }

/-- Session state with an empty committed cart and no pending updates. -/
def demoLiveEmpty : LiveState :=
  { committedCart := [], currentUser := demoUser, sessionUser := demoUser,
    customers := [demoUser], pendingCart := [], pendingUser := none,
    rands := [1234] }

/-- Session state whose committed cart holds 2 × demoProduct. -/
def demoLiveCart : LiveState :=
  { committedCart := [{ product := demoProduct, quantity := 2 }],
    currentUser := demoUser, sessionUser := demoUser,
    customers := [demoUser], pendingCart := [], pendingUser := none,
    rands := [7] }

/-- Application state with a two-line cart (2 × demoProduct, 1 × demoJeans). -/
def demoAppCart : AppState :=
  { currentUser := demoUser, customers := [demoUser],
    cart := [{ product := demoProduct, quantity := 2 },
             { product := demoJeans, quantity := 1 }] }

/-- The session state left behind by the same-batch
add_to_cart → place_order scenario (used to look at the following turn). -/
def demoAfterBatch : LiveState :=
  match dispatchBatch demoEnv demoLiveEmpty
      [.addToCartCall (some "vintage") (some 1), .placeOrderCall] with
  | .ok (_, st) => st
  | .error _ => demoLiveEmpty

/-- The session state after an `add_to_cart` tool call whose `quantity`
argument is -1 (the `quantity || 1` default only replaces falsy values, so
-1 is forwarded to `addToCart` unchanged). -/
def demoAfterNegativeAdd : LiveState :=
  match dispatchCall demoEnv demoLiveEmpty
      (.addToCartCall (some "vintage") (some (-1))) with
  | .ok (_, st) => st
  | .error _ => demoLiveEmpty

/-! ## Helper lemmas -/

/-- Folding `+ f x` over a list from `a` is `a` plus the mapped sum. -/
theorem foldl_add_map_sum (f : CartItem → Int) :
    ∀ (l : List CartItem) (a : Int),
      l.foldl (fun s it => s + f it) a = a + (l.map f).sum := by
  intro l
  induction l with
  | nil => intro a; simp
  | cons x xs ih => intro a; simp [ih, add_assoc]

/-- `cartTotal` is the sum of price × quantity over the cart. -/
theorem cartTotal_eq_sum (cart : List CartItem) :
    cartTotal cart =
      (cart.map (fun it => it.product.price * it.quantity)).sum := by
  simpa [cartTotal] using
    foldl_add_map_sum (fun it => it.product.price * it.quantity) cart 0

/-! ## C1: empty-cart checkout -/

/-- C1 counterexample: the claim says that calling `checkout()` (the shared
`placeOrder` boundary, i.e. `handleCheckout`) on an empty cart returns a
business-rule failure, leaves the order history unchanged and produces no
order id.  In fact `handleCheckout` has no empty-cart check: called with an
empty cart it produces the order id `ORD-1234` (for random draw 1234) and
grows the active customer's order history by one (zero-item) order. -/
theorem checkout_empty_cart_creates_order :
    (appCheckout 1234 "2024-06-01"
        { currentUser := demoUser, customers := [demoUser], cart := [] }
      ).2.currentUser.orders.length = demoUser.orders.length + 1 ∧
    (appCheckout 1234 "2024-06-01"
        { currentUser := demoUser, customers := [demoUser], cart := [] }
      ).1 = "ORD-1234" := by
  constructor <;> rfl

/-- C1 (amended): the empty-cart business-rule failure is enforced at the
tool-dispatch layer, not inside `checkout()` itself: dispatching
`place_order` while the committed cart is empty returns the structured
failure `Cart is empty. Cannot place order.`, does not invoke
`handleCheckout`, creates no order and leaves the entire session state
(customer list included) unchanged; no order id is produced. -/
theorem place_order_empty_cart_fails (env : DispatchEnv) (st : LiveState)
    (h : st.committedCart = []) :
    dispatchCall env st .placeOrderCall = .ok (.failure emptyCartMessage, st) := by
  simp [dispatchCall, h]

/-- C1 witness: the amended theorem at a concrete empty-cart state. -/
theorem place_order_empty_cart_fails_witness :
    demoLiveEmpty.committedCart = [] ∧
    dispatchCall demoEnv demoLiveEmpty .placeOrderCall =
      .ok (.failure emptyCartMessage, demoLiveEmpty) :=
  ⟨rfl, place_order_empty_cart_fails demoEnv demoLiveEmpty rfl⟩

/-! ## C2: non-empty-cart checkout -/

/-- C2: on a non-empty cart, `checkout()` prepends exactly one new order to
the front of the active customer's order history; the new order's total is
the sum over the pre-checkout cart of (current catalog price of the
product) × (quantity) — the hypothesis `hprices` records that each cart
entry stores the catalog's (immutable) product record; the post-checkout
cart is empty in the very same resulting state (order creation and cart
clearing are one atomic step of the state machine); and the returned order
id is the new order's id. -/
theorem checkout_nonempty_correct (products : List Product) (rand : Nat)
    (date : String) (s : AppState)
    (hne : s.cart ≠ [])
    (hprices : ∀ it ∈ s.cart,
      catalogPrice products it.product.id = some it.product.price) :
    (appCheckout rand date s).2.currentUser.orders =
      mkOrder rand date s.cart :: s.currentUser.orders ∧
    (mkOrder rand date s.cart).total = specTotal products s.cart ∧
    (appCheckout rand date s).2.cart = [] ∧
    (appCheckout rand date s).1 = (mkOrder rand date s.cart).id := by
  refine ⟨by simp [appCheckout, handleCheckout], ?_, rfl, rfl⟩
  have h1 : (mkOrder rand date s.cart).total =
      (s.cart.map (fun it => it.product.price * it.quantity)).sum := by
    simp [mkOrder, cartTotal_eq_sum]
  rw [h1, specTotal]
  congr 1
  refine List.map_congr_left ?_
  intro it hit
  rw [hprices it hit]
  simp

/-- C2 witness: checking out the concrete two-line cart
(2 × $40 T-Shirt, 1 × $50 Jeans). -/
theorem checkout_nonempty_correct_witness :
    demoAppCart.cart ≠ [] ∧
    ((appCheckout 42 "2024-06-01" demoAppCart).2.currentUser.orders =
        mkOrder 42 "2024-06-01" demoAppCart.cart ::
          demoAppCart.currentUser.orders ∧
      (mkOrder 42 "2024-06-01" demoAppCart.cart).total =
        specTotal [demoProduct, demoJeans] demoAppCart.cart ∧
      (appCheckout 42 "2024-06-01" demoAppCart).2.cart = [] ∧
      (appCheckout 42 "2024-06-01" demoAppCart).1 =
        (mkOrder 42 "2024-06-01" demoAppCart.cart).id) :=
  ⟨by decide,
   checkout_nonempty_correct [demoProduct, demoJeans] 42 "2024-06-01"
     demoAppCart (by decide) (by decide)⟩

/-! ## C3: add_to_cart visibility to a following place_order -/

/-- C3: the claim says a successful `add_to_cart` is reflected in the cart
state consulted by a `place_order` dispatched immediately after it in the
same batch.  It is not: `addToCart` goes through React `setCart`, which is
committed only after the `onmessage` callback returns, while `place_order`
reads the `cartRef` mirror refreshed by a `useEffect` after a commit.  In
the concrete failing batch below, `add_to_cart` succeeds yet the very next
`place_order` reports `Cart is empty. Cannot place order.`; only after the
commit (the next turn) does `place_order` see the added item and succeed. -/
theorem same_batch_add_then_place_order_fails :
    batchResults (dispatchBatch demoEnv demoLiveEmpty
        [.addToCartCall (some "vintage") (some 1), .placeOrderCall]) =
      [.success (addSuccessMessage demoProduct 1) none none,
       .failure emptyCartMessage] ∧
    (commitState demoAfterBatch).committedCart =
      [{ product := demoProduct, quantity := 1 }] ∧
    batchResults (dispatchBatch demoEnv (commitState demoAfterBatch)
        [.placeOrderCall]) =
      [.success (orderPlacedMessage "ORD-1234") (some "ORD-1234") none] := by
  exact ⟨rfl, rfl, rfl⟩

/-! ## C4: required-argument validation -/

/-- C4 counterexample: the claim says the dispatcher validates required
arguments and that a call missing one (e.g. `add_to_cart` without
`productName`) yields a structured failure, never an exception.  In fact
the `add_to_cart` branch destructures `fc.args` and immediately evaluates
`productName.toLowerCase()`, so a missing `productName` throws a
`TypeError` instead of producing any structured result. -/
theorem add_to_cart_missing_name_throws :
    dispatchCall demoEnv demoLiveEmpty (.addToCartCall none none) =
      .error (.typeError
        "Cannot read properties of undefined (reading toLowerCase)") := rfl

/-- C4 (amended): the dispatcher performs no required-argument validation.
`add_to_cart` with a missing `productName` raises a `TypeError` which
aborts the whole batch (the remaining calls never run and no responses are
sent); `escalate_issue` with a missing `reason` is executed anyway and
reports success; an unknown tool name yields the structured
`{error: 'Unknown tool'}` result without raising. -/
theorem dispatch_no_argument_validation (env : DispatchEnv) (st : LiveState)
    (quantity? : Option Int) (rest : List ToolCall) (name : String) :
    dispatchCall env st (.addToCartCall none quantity?) =
      .error (.typeError
        "Cannot read properties of undefined (reading toLowerCase)") ∧
    dispatchBatch env st (.addToCartCall none quantity? :: rest) =
      .error (.typeError
        "Cannot read properties of undefined (reading toLowerCase)") ∧
    dispatchCall env st (.escalateIssue none) =
      .ok (.success (escalationMessage env.ticketId) none
        (some env.ticketId), st) ∧
    dispatchCall env st (.unknown name) = .ok (.unknownTool, st) := by
  refine ⟨rfl, ?_, rfl, rfl⟩
  simp [dispatchBatch, dispatchCall]

/-! ## C5: the quantity ≥ 1 invariant -/

/-- C5 counterexample: the claim says every cart state reachable through
the cart operations — including the `add_to_cart` tool path with an
arbitrary quantity argument — has all quantities ≥ 1.  But the tool path's
`quantity || 1` default only replaces falsy values (absent or 0): an
`add_to_cart` call with quantity -1 drives the committed cart to a single
entry of quantity -1. -/
theorem cart_negative_quantity_reachable :
    (commitState demoAfterNegativeAdd).committedCart =
      [{ product := demoProduct, quantity := -1 }] ∧
    ¬ CartOk (commitState demoAfterNegativeAdd).committedCart := by
  refine ⟨rfl, fun h => ?_⟩
  have hmem : ({ product := demoProduct, quantity := -1 } : CartItem) ∈
      (commitState demoAfterNegativeAdd).committedCart := by
    rw [(rfl : (commitState demoAfterNegativeAdd).committedCart =
      [{ product := demoProduct, quantity := -1 }])]
    exact List.mem_singleton_self _
  exact absurd (h _ hmem) (by decide)

/-- C5 (amended): the quantity ≥ 1 invariant holds across `addToCart` with
quantity ≥ 1, `updateQuantity` with any argument (an argument < 1 leaves
the cart completely unchanged — a no-op, not a clamp-and-remove),
`removeFromCart`, `clearCart` and `checkout`; on the `add_to_cart` tool
path the `quantity || 1` default yields a quantity ≥ 1 only when the
argument is absent or ≥ 0 (a negative argument is forwarded unchanged and
breaks the invariant, per the counterexample). -/
theorem cart_quantity_invariant (cart : List CartItem) (p : Product)
    (productId : String) (q : Int) (quantity? : Option Int) (u : CartUpdate)
    (rand : Nat) (date : String) (s : AppState)
    (hok : CartOk cart) :
    (1 ≤ q → CartOk (addToCart cart p q)) ∧
    CartOk (updateCartItemQuantity cart productId q) ∧
    (q < 1 → updateCartItemQuantity cart productId q = cart) ∧
    CartOk (removeFromCart cart productId) ∧
    CartOk (clearCart cart) ∧
    CartOk (appCheckout rand date s).2.cart ∧
    ((quantity? = none ∨ ∃ v, quantity? = some v ∧ 0 ≤ v) →
      1 ≤ jsOrDefault quantity? 1) ∧
    (CartUpdateOk u → CartOk (applyCartUpdate cart u)) := by
  have hadd : ∀ (c : List CartItem) (p' : Product) (q' : Int), CartOk c →
      1 ≤ q' → CartOk (addToCart c p' q') := by
    intro c p' q' hc hq' it hit
    unfold addToCart at hit
    cases hf : c.find? (fun item => item.product.id == p'.id) with
    | some x =>
        rw [hf] at hit
        rcases List.mem_map.1 hit with ⟨it0, hit0, rfl⟩
        by_cases hid : (it0.product.id == p'.id) = true
        · have := hc it0 hit0
          simp only [hid, if_true]
          omega
        · simp only [hid, if_false]
          exact hc it0 hit0
    | none =>
        rw [hf] at hit
        rcases List.mem_append.1 hit with h1 | h1
        · exact hc it h1
        · rcases List.mem_singleton.1 h1 with rfl
          exact hq'
  refine ⟨hadd cart p q hok, ?_, ?_, ?_, ?_, ?_, ?_, ?_⟩
  · intro it hit
    unfold updateCartItemQuantity at hit
    by_cases hlt : q < 1
    · rw [if_pos hlt] at hit
      exact hok it hit
    · rw [if_neg hlt] at hit
      rcases List.mem_map.1 hit with ⟨it0, hit0, rfl⟩
      by_cases hid : (it0.product.id == productId) = true
      · simp only [hid, if_true]
        omega
      · simp only [hid, if_false]
        exact hok it0 hit0
  · intro hlt
    simp [updateCartItemQuantity, hlt]
  · intro it hit
    exact hok it (List.mem_of_mem_filter hit)
  · intro it hit
    simp [clearCart] at hit
  · intro it hit
    simp [appCheckout] at hit
  · rintro (rfl | ⟨v, rfl, hv⟩)
    · simp [jsOrDefault]
    · by_cases hv0 : v = 0
      · simp [jsOrDefault, hv0]
      · simp only [jsOrDefault, if_neg hv0]
        omega
  · intro hu
    cases u with
    | add p' q' => exact hadd cart p' q' hok hu
    | clear => intro it hit; simp [applyCartUpdate] at hit

/-- C5 witness: the amended invariant applied to a concrete one-line cart
of quantity 2, adding 3 × demoJeans keeps every quantity ≥ 1. -/
theorem cart_quantity_invariant_witness :
    CartOk [{ product := demoProduct, quantity := 2 }] ∧
    CartOk (addToCart [{ product := demoProduct, quantity := 2 }]
      demoJeans 3) ∧
    updateCartItemQuantity [{ product := demoProduct, quantity := 2 }]
      "P1000" 0 = [{ product := demoProduct, quantity := 2 }] :=
  ⟨by decide,
   (cart_quantity_invariant [{ product := demoProduct, quantity := 2 }]
      demoJeans "P1000" 3 none .clear 0 "" demoAppCart (by decide)).1
     (by decide),
   ((cart_quantity_invariant [{ product := demoProduct, quantity := 2 }]
      demoJeans "P1000" 0 none .clear 0 "" demoAppCart (by decide)).2.2.1
     (by decide))⟩

/-! ## C6: repeated addToCart is additive -/

/-- When no cart entry matches the product id, `addToCart` appends a fresh
entry. -/
theorem addToCart_fresh (cart0 : List CartItem) (p : Product) (q : Int)
    (h0 : ∀ it ∈ cart0, (it.product.id == p.id) = false) :
    addToCart cart0 p q = cart0 ++ [{ product := p, quantity := q }] := by
  unfold addToCart
  have hf : cart0.find? (fun item => item.product.id == p.id) = none :=
    List.find?_eq_none.2 (by intro x hx; simp [h0 x hx])
  rw [hf]

/-- Filtering commutes with mapping a function that does not change the
filtering predicate's verdict. -/
theorem filter_map_pred_inv (f : CartItem → CartItem) (P : CartItem → Bool)
    (hf : ∀ it, P (f it) = P it) (c : List CartItem) :
    (c.map f).filter P = (c.filter P).map f := by
  induction c with
  | nil => simp
  | cons x xs ih =>
      by_cases hx : P x = true
      · simp [List.filter_cons, hf, hx, ih]
      · simp [List.filter_cons, hf, hx, ih]

/-- When the entries matching the product id form exactly `[⟨pr, s⟩]`,
`addToCart` bumps that single entry's quantity by `q`. -/
theorem filter_addToCart_existing (c : List CartItem) (p pr : Product)
    (s q : Int)
    (h : c.filter (fun it => it.product.id == p.id) =
      [{ product := pr, quantity := s }]) :
    (addToCart c p q).filter (fun it => it.product.id == p.id) =
      [{ product := pr, quantity := s + q }] := by
  have hmem : ({ product := pr, quantity := s } : CartItem) ∈
      c.filter (fun it => it.product.id == p.id) := by
    rw [h]; exact List.mem_singleton_self _
  have hP : (pr.id == p.id) = true := (List.mem_filter.1 hmem).2
  have hsome : (c.find? (fun it => it.product.id == p.id)).isSome :=
    List.find?_isSome.2 ⟨_, (List.mem_filter.1 hmem).1, hP⟩
  unfold addToCart
  cases hf : c.find? (fun it => it.product.id == p.id) with
  | none => rw [hf] at hsome; simp at hsome
  | some x =>
      have hinv : ∀ it : CartItem,
          ((if it.product.id == p.id then
              { it with quantity := it.quantity + q }
            else it).product.id == p.id) = (it.product.id == p.id) := by
        intro it
        by_cases hid : (it.product.id == p.id) = true
        · simp [hid]
        · simp [hid]
      rw [filter_map_pred_inv _ _ hinv, h]
      simp only [List.map_cons, List.map_nil]
      rw [if_pos hP]

/-- Folding further `addToCart` calls over a cart whose matching entries
are exactly `[⟨pr, s⟩]` accumulates the quantities into that entry. -/
theorem foldl_addToCart_filter (p : Product) :
    ∀ (qs : List Int) (c : List CartItem) (pr : Product) (s : Int),
      c.filter (fun it => it.product.id == p.id) =
        [{ product := pr, quantity := s }] →
      (qs.foldl (fun acc x => addToCart acc p x) c).filter
          (fun it => it.product.id == p.id) =
        [{ product := pr, quantity := s + qs.sum }] := by
  intro qs
  induction qs with
  | nil => intro c pr s h; simpa using h
  | cons x xs ih =>
      intro c pr s h
      have h1 := filter_addToCart_existing c p pr s x h
      have h2 := ih (addToCart c p x) pr (s + x) h1
      simpa [add_assoc] using h2

/-- C6: starting from a cart with no entry for the product's id, a sequence
of `addToCart` calls for that product with quantities `q :: qs` (each ≥ 1)
leaves exactly one entry for that product id, whose quantity is the sum of
the added quantities — re-adding never duplicates the entry. -/
theorem addToCart_repeated_additive (cart0 : List CartItem) (p : Product)
    (q : Int) (qs : List Int)
    (hfresh : ∀ it ∈ cart0, (it.product.id == p.id) = false)
    (hq : 1 ≤ q) (hqs : ∀ x ∈ qs, 1 ≤ x) :
    ((q :: qs).foldl (fun c x => addToCart c p x) cart0).filter
        (fun it => it.product.id == p.id) =
      [{ product := p, quantity := (q :: qs).sum }] := by
  have hnil : cart0.filter (fun it => it.product.id == p.id) = [] := by
    rw [List.filter_eq_nil_iff]
    intro a ha
    simp [hfresh a ha]
  have h1 : (addToCart cart0 p q).filter
      (fun it => it.product.id == p.id) = [{ product := p, quantity := q }] := by
    rw [addToCart_fresh cart0 p q hfresh, List.filter_append, hnil]
    simp
  have h2 := foldl_addToCart_filter p qs (addToCart cart0 p q) p q h1
  simpa using h2

/-- C6 witness: adding quantities 2 then 3 of the demo product to an empty
cart yields a single entry of quantity 5. -/
theorem addToCart_repeated_additive_witness :
    (((2 : Int) :: [3]).foldl (fun c x => addToCart c demoProduct x)
        []).filter (fun it => it.product.id == demoProduct.id) =
      [{ product := demoProduct, quantity := 5 }] := by
  have h := addToCart_repeated_additive [] demoProduct 2 [3]
    (by intro it hit; simp at hit) (by decide) (by decide)
  norm_num at h
  exact h

/-! ## C7: freshness of generated order ids -/

/-- C7 counterexample: the claim says every checkout generates an order id
distinct from every order id already present in any customer's history.
The id is `ORD-${Math.floor(Math.random() * 10000)}` with no uniqueness
check: for the random draw 7782, checking out as the seeded customer Alice
produces `ORD-7782`, which is already the id of her first pre-seeded
order. -/
theorem checkout_id_collides_with_seeded :
    (appCheckout 7782 "2024-06-01"
        { currentUser := aliceSeeded, customers := seededCustomers,
          cart := [{ product := demoProduct, quantity := 1 }] }).1 ∈
      aliceSeeded.orders.map (fun o => o.id) := by decide

/-- C7 (amended): every checkout generates an order id of the fixed shape
`ORD-N` where `N` is the random draw reduced mod 10000, stamps that id on
the order it prepends to the active customer's history, and returns it; no
uniqueness check against existing order ids is performed, so the id can
collide with a pre-seeded or previously generated one. -/
theorem checkout_orderId_shape (rand : Nat) (date : String) (s : AppState) :
    (appCheckout rand date s).1 = "ORD-" ++ toString (rand % 10000) ∧
    (appCheckout rand date s).2.currentUser.orders.head? =
      some (mkOrder rand date s.cart) ∧
    (mkOrder rand date s.cart).id = "ORD-" ++ toString (rand % 10000) := by
  refine ⟨rfl, ?_, rfl⟩
  simp [appCheckout, handleCheckout]

/-! ## C8: the catalog search contract -/

/-- C8: `searchProducts` returns at most 5 products; it equals the catalog
filtered by the spec's match predicate (case-insensitive substring of the
name for a truthy query, case-insensitive substring of the category for a
truthy non-generic category) in insertion order, truncated to the first 5
matches; a generic/umbrella category (apparel, clothing, apparels, case-
insensitively) makes the category filter be ignored entirely; and when
nothing matches the result is the empty list (never an error — the
function is total). -/
theorem searchProducts_spec (products : List Product)
    (query category : Option String) :
    (searchProducts products query category).length ≤ 5 ∧
    searchProducts products query category =
      (products.filter (specMatch query category)).take 5 ∧
    (genericCategory category = true →
      searchProducts products query category =
        searchProducts products query none) ∧
    ((∀ p ∈ products, specMatch query category p = false) →
      searchProducts products query category = []) := by
  have hmain : ∀ cat' : Option String,
      searchProducts products query cat' =
        (products.filter (specMatch query cat')).take 5 := by
    intro cat'
    unfold searchProducts specMatch
    cases cat' with
    | none =>
        cases query with
        | none => simp
        | some q =>
            by_cases hq : q.isEmpty
            · simp [hq]
            · simp [hq]
    | some c =>
        by_cases hc : c.isEmpty
        · cases query with
          | none => simp [hc]
          | some q =>
              by_cases hq : q.isEmpty
              · simp [hc, hq]
              · simp [hc, hq]
        · by_cases hgen : genericCategory (some c) = true
          · have hgen' : (jsToLower c = "apparel" ∨ jsToLower c = "clothing")
                ∨ jsToLower c = "apparels" := by
              simp [genericCategory] at hgen
              tauto
            cases query with
            | none => simp [hc, hgen, hgen']
            | some q =>
                by_cases hq : q.isEmpty
                · simp [hc, hq, hgen, hgen']
                · simp [hc, hq, hgen, hgen']
          · have hgen' : ¬((jsToLower c = "apparel" ∨ jsToLower c = "clothing")
                ∨ jsToLower c = "apparels") := by
              simp [genericCategory] at hgen
              tauto
            cases query with
            | none => simp [hc, hgen, hgen']
            | some q =>
                by_cases hq : q.isEmpty
                · simp [hc, hq, hgen, hgen']
                · simp [hc, hq, hgen, hgen', List.filter_filter,
                    Bool.and_comm]
  refine ⟨?_, hmain category, ?_, ?_⟩
  · rw [hmain category]
    simpa using List.length_take_le 5 _
  · intro hgen
    rw [hmain category, hmain none]
    have hfil : products.filter (specMatch query category) =
        products.filter (specMatch query none) := by
      apply List.filter_congr
      intro p _
      cases category with
      | none => rfl
      | some c =>
          unfold specMatch
          by_cases hc : c.isEmpty
          · simp [hc]
          · simp [hc, hgen]
    rw [hfil]
  · intro hnone
    rw [hmain category, List.filter_eq_nil_iff.2
      (by intro a ha; simp [hnone a ha])]
    rfl

/-- C8 witness: a generic category argument (`Apparel`) is ignored
entirely, so the search over the demo catalog equals the category-free
search. -/
theorem searchProducts_spec_witness :
    genericCategory (some "Apparel") = true ∧
    searchProducts [demoProduct, demoJeans] none (some "Apparel") =
      searchProducts [demoProduct, demoJeans] none none :=
  ⟨by decide,
   (searchProducts_spec [demoProduct, demoJeans] none
     (some "Apparel")).2.2.1 (by decide)⟩

/-! ## C9: audio scheduling and interruption -/

/-- C9: an interruption discards every tracked output fragment (the source
set becomes empty) and resets the playback cursor; the next fragment
arriving at playback-clock time `now ≥ 0` is then scheduled to start
exactly at `now` (no gap) and the cursor advances past it; in general a
fragment starts at the later of the cursor and the current playback time,
and the cursor then advances by the fragment's duration. -/
theorem interruption_resets_playback (st : AudioPlayback)
    (now duration : Rat) (hnow : 0 ≤ now) :
    (handleInterruption st).sources = [] ∧
    (handleInterruption st).nextStartTime = 0 ∧
    (scheduleFragment (handleInterruption st) now duration).2 = now ∧
    (scheduleFragment (handleInterruption st) now duration).1.nextStartTime =
      now + duration ∧
    (scheduleFragment st now duration).2 = max st.nextStartTime now ∧
    (scheduleFragment st now duration).1.nextStartTime =
      max st.nextStartTime now + duration := by
  refine ⟨rfl, rfl, ?_, ?_, rfl, rfl⟩
  · simp [scheduleFragment, handleInterruption, max_eq_right hnow]
  · simp [scheduleFragment, handleInterruption, max_eq_right hnow]

/-- C9 witness: the spec's scenario with two fragments scheduled (cursor at
3) when the interruption arrives; the next fragment, arriving at clock time
4, starts at 4 and moves the cursor to 5. -/
theorem interruption_resets_playback_witness :
    (handleInterruption ⟨3, [(0, 2), (2, 1)]⟩).sources = [] ∧
    (handleInterruption ⟨3, [(0, 2), (2, 1)]⟩).nextStartTime = 0 ∧
    (scheduleFragment (handleInterruption ⟨3, [(0, 2), (2, 1)]⟩) 4 1).2 = 4 ∧
    (scheduleFragment (handleInterruption ⟨3, [(0, 2), (2, 1)]⟩) 4 1
      ).1.nextStartTime = 4 + 1 ∧
    (scheduleFragment ⟨3, [(0, 2), (2, 1)]⟩ 4 1).2 = max 3 4 ∧
    (scheduleFragment ⟨3, [(0, 2), (2, 1)]⟩ 4 1).1.nextStartTime =
      max 3 4 + 1 :=
  interruption_resets_playback ⟨3, [(0, 2), (2, 1)]⟩ 4 1 (by norm_num)

/-! ## C10: place_order is immediately visible to get_my_orders -/

/-- Prepending an order at the first customer matching an id that is known
to be present makes that order the head of what `getCustomerOrders`
returns for the id. -/
theorem getCustomerOrders_prependOrderAtFirst (customers : List Customer)
    (customerId : String) (order : Order)
    (h : customers.any (fun c => c.id == customerId) = true) :
    getCustomerOrders (prependOrderAtFirst customers customerId order)
        customerId =
      order :: getCustomerOrders customers customerId := by
  induction customers with
  | nil => simp at h
  | cons c rest ih =>
      by_cases hc : (c.id == customerId) = true
      · simp [prependOrderAtFirst, getCustomerOrders, hc,
          List.find?_cons_of_pos]
      · have h' : rest.any (fun c => c.id == customerId) = true := by
          rcases List.any_eq_true.1 h with ⟨x, hx, hpx⟩
          rcases List.mem_cons.1 hx with rfl | hx'
          · exact absurd hpx hc
          · exact List.any_eq_true.2 ⟨x, hx', hpx⟩
        have hrec := ih h'
        simp only [prependOrderAtFirst, if_neg hc]
        simpa [getCustomerOrders, List.find?_cons_of_neg, hc] using hrec

/-- C10: dispatching `place_order` (on a non-empty committed cart) followed
by `get_my_orders` for the same customer in the very same tool-call batch
returns an order history whose first entry is the freshly created order,
whose id is exactly the order id reported by `place_order` — because
`handleCheckout` writes the new order synchronously into the shared
`CUSTOMERS` list that `getCustomerOrders` reads. -/
theorem place_order_then_get_orders (env : DispatchEnv) (st : LiveState)
    (hne : st.committedCart ≠ [])
    (hid : st.sessionUser.id = st.currentUser.id)
    (hmem : st.customers.any (fun c => c.id == st.currentUser.id) = true) :
    batchResults (dispatchBatch env st [.placeOrderCall, .getMyOrders]) =
      [.success (orderPlacedMessage (genOrderId (st.rands.headD 0)))
         (some (genOrderId (st.rands.headD 0))) none,
       .orders (mkOrder (st.rands.headD 0) env.date st.committedCart ::
         getCustomerOrders st.customers st.currentUser.id)] := by
  obtain ⟨cc, cu, su, cs, pc, pu, rs⟩ := st
  simp only at hne hid hmem ⊢
  cases cc with
  | nil => exact absurd rfl hne
  | cons item rest =>
      simp only [dispatchBatch, dispatchCall, batchResults, handleCheckout,
        List.isEmpty_cons, Bool.false_eq_true, if_false, hid]
      rw [getCustomerOrders_prependOrderAtFirst cs cu.id
        (mkOrder (rs.headD 0) env.date (item :: rest)) hmem]
      rfl

/-- C10 witness: the concrete committed cart with 2 × demoProduct; the
batch [place_order, get_my_orders] reports order `ORD-7` and an order
history headed by that very order. -/
theorem place_order_then_get_orders_witness :
    demoLiveCart.committedCart ≠ [] ∧
    batchResults (dispatchBatch demoEnv demoLiveCart
        [.placeOrderCall, .getMyOrders]) =
      [.success (orderPlacedMessage (genOrderId (demoLiveCart.rands.headD 0)))
         (some (genOrderId (demoLiveCart.rands.headD 0))) none,
       .orders (mkOrder (demoLiveCart.rands.headD 0) demoEnv.date
           demoLiveCart.committedCart ::
         getCustomerOrders demoLiveCart.customers
           demoLiveCart.currentUser.id)] :=
  ⟨by decide,
   place_order_then_get_orders demoEnv demoLiveCart (by decide) rfl
     (by decide)⟩

end NovaSupport
